import Mathlib

/-!
Shallow embedding of the job correlation and polling client of
`src/hooks/useAutoLyrixAlign.tsx`.  That file holds three rewrites of the
same React hook, separated by document markers; below they are called
variant 1 (lines 1-333), variant 2 (lines 334-699) and variant 3
(lines 700-952), in file order.  Timestamps are modelled as integer
milliseconds since the epoch, JS strings as Lean `String`, JS `null` and
`undefined` as `Option.none`.  Network calls are modelled by passing in what
each call returns; a thrown JS error is a dedicated constructor.
-/

namespace AutoLyrix

/-- Status of a remote GitHub Actions workflow run (`run.status`). -/
inductive RunStatus
  | queued
  | in_progress
  | completed
deriving DecidableEq

/-- Conclusion of a run (`run.conclusion`); `none` models the JS `null` a run
carries before it completes. -/
inductive Conclusion
  | success
  | failure
  | cancelled
deriving DecidableEq

/-- A remote workflow run as the runs endpoints return it:
`{id, status, conclusion, created_at}`, with `created_at` in ms. -/
structure RemoteRun where
  id : Nat
  created_at : Int
  status : RunStatus
  conclusion : Option Conclusion
deriving DecidableEq

/-- Variant 3, lines 809-819: the `candidateRuns` window test on
`timeDiff = runTime.getTime() - dispatchTime.getTime()`. -/
def isRecentEnough (dispatchTime : Int) (run : RemoteRun) : Bool :=
  let timeDiff := run.created_at - dispatchTime
  decide (-5000 ≤ timeDiff) && decide (timeDiff ≤ 30000)

/-- Variant 3, lines 809-819: `candidateRuns = runsData.workflow_runs.filter(...)`. -/
def candidateRuns (dispatchTime : Int) (workflow_runs : List RemoteRun) : List RemoteRun :=
  workflow_runs.filter (isRecentEnough dispatchTime)

/-- Variant 1, lines 236-239: the `relevantRun` predicate.  The source compares
`run.created_at > new Date(startTime - 60000).toISOString()` as ISO strings,
which for ISO-8601 timestamps is order-equivalent to comparing the instants. -/
def relevantRunPred (startTime : Int) (run : RemoteRun) : Bool :=
  decide (startTime - 60000 < run.created_at) &&
    (run.status == RunStatus.completed || run.status == RunStatus.in_progress)

/-- Variant 1, lines 236-239: `workflows.find(...)`. -/
def relevantRun (startTime : Int) (workflows : List RemoteRun) : Option RemoteRun :=
  workflows.find? (relevantRunPred startTime)

/-- Variant 2, lines 573-576: the `recentRun` predicate
`runCreatedAt >= startTime - 60000`. -/
def recentRunPred (startTime : Int) (run : RemoteRun) : Bool :=
  decide (startTime - 60000 ≤ run.created_at)

/-- Client-side job status (`AlignmentJob.status`), shared by variants 1 and 2. -/
inductive JobStatus
  | starting
  | processing
  | completed
  | failed
  | timeout
deriving DecidableEq

/-- The `AlignmentJob` record of variants 1 and 2.  The variant-1 record has no
`workflowRunId` field; the variant-1 functions below never touch it. -/
structure Job where
  jobId : String
  status : JobStatus
  progress : Nat
  message : String
  results : Option (List String) := none
  error : Option String := none
  workflowRunId : Option Nat := none
deriving DecidableEq

/-- The artifact list the hook reports for a job (line 687:
`artifacts: currentJob.results || []`). -/
def resultArtifacts (j : Job) : List String :=
  j.results.getD []

/-- What one `getWorkflowArtifacts` call returns: the artifact names, or the
call threw (network failure or non-2xx response). -/
inductive ArtifactsResult
  | ok (artifacts : List String)
  | err
deriving DecidableEq

/-- What one polling iteration observes from the network: either the runs-list
request threw, or it returned a list of runs, paired with what an artifacts
request made in the same iteration would return. -/
inductive PollObs
  | pollErr
  | runs (workflow_runs : List RemoteRun) (arts : ArtifactsResult)
deriving DecidableEq

/-- Variant 1, line 222: `maxWaitTime = 10 * 60 * 1000`. -/
def maxWaitTime1 : Int := 10 * 60 * 1000

/-- Variant 2, line 550: `maxWaitTime = 8 * 60 * 1000`. -/
def maxWaitTime2 : Int := 8 * 60 * 1000

/-- Variant 1, lines 227-228: the timeout snapshot (the progress is left as it
was). -/
def v1TimeoutJob (job : Job) : Job :=
  { job with status := JobStatus.timeout,
             message := "Processing timed out. Please try again with a smaller file." }

/-- Variant 1, lines 242-246: the snapshot reported on finding the relevant
run, before its conclusion is inspected. -/
def v1RunJob (run : RemoteRun) (job : Job) : Job :=
  { job with
    progress := if run.status = RunStatus.in_progress then 70 else 90,
    message := if run.status = RunStatus.in_progress
      then "Processing audio and lyrics..."
      else "Finalizing results..." }

/-- Variant 1, lines 252-256: the completion snapshot. -/
def v1CompletedJob (artifacts : List String) (run : RemoteRun) (job : Job) : Job :=
  { v1RunJob run job with
      status := JobStatus.completed,
      progress := 100,
      message := "Alignment completed successfully!",
      results := some artifacts }

/-- Variant 1, lines 259-262: the failure snapshot. -/
def v1FailedRunJob (run : RemoteRun) (job : Job) : Job :=
  { v1RunJob run job with
      status := JobStatus.failed,
      error := some "Processing failed. Please check your audio file and try again.",
      message := "Processing failed" }

/-- One iteration of variant 1 `pollForCompletion` (lines 225-273), for a job
started at `startTime` and running at wall-clock `now`.  Returns the
`setCurrentJob` snapshots the iteration emits, the shared mutable `job` object
after the iteration, and whether `setTimeout(pollForCompletion, pollInterval)`
is scheduled again.  A throw from `getWorkflowArtifacts` lands in the catch of
lines 269-272, which only schedules the next poll; a conclusion that is
neither `success` nor `failure` also keeps polling. -/
def pollStep1 (startTime now : Int) (job : Job) (obs : PollObs) :
    List Job × Job × Bool :=
  if maxWaitTime1 < now - startTime then
    ([v1TimeoutJob job], v1TimeoutJob job, false)
  else
    match obs with
    | PollObs.pollErr => ([], job, true)
    | PollObs.runs workflows arts =>
      match relevantRun startTime workflows with
      | none => ([], job, true)
      | some run =>
        if run.conclusion = some Conclusion.success then
          match arts with
          | ArtifactsResult.ok artifacts =>
            ([v1RunJob run job, v1CompletedJob artifacts run job],
             v1CompletedJob artifacts run job, false)
          | ArtifactsResult.err => ([v1RunJob run job], v1RunJob run job, true)
        else if run.conclusion = some Conclusion.failure then
          ([v1RunJob run job, v1FailedRunJob run job], v1FailedRunJob run job, false)
        else
          ([v1RunJob run job], v1RunJob run job, true)

/-- JS template interpolation of a `conclusion` value (string for a value,
`null` for the JS null). -/
def conclusionText : Option Conclusion → String
  | none => "null"
  | some Conclusion.success => "success"
  | some Conclusion.failure => "failure"
  | some Conclusion.cancelled => "cancelled"

/-- Variant 2, lines 557-560: the timeout snapshot. -/
def v2TimeoutJob (job : Job) : Job :=
  { job with status := JobStatus.timeout,
             message := "Processing timed out. Check GitHub Actions for results.",
             progress := 95 }

/-- Variant 2, lines 631-633: the waiting snapshot while no run matches yet
(the source message interpolates `Math.round(elapsedTime/1000)`). -/
def v2WaitingJob (elapsedTime : Int) (job : Job) : Job :=
  let waitSecs := (elapsedTime + 500) / 1000
  { job with message := s!"Waiting for workflow to start... ({waitSecs}s)" }

/-- Variant 2, lines 584-587: the snapshot while the found run is in progress;
progress ramps by 10 up to 80. -/
def v2InProgressJob (job : Job) : Job :=
  { job with progress := min (job.progress + 10) 80,
             message := "GitHub Actions is processing your request..." }

/-- Variant 2, lines 594-596: the snapshot just before the artifacts request. -/
def v2FetchingJob (job : Job) : Job :=
  { job with message := "Fetching results...", progress := 90 }

/-- Variant 2, lines 602-606: the completion snapshot with the artifact list. -/
def v2CompletedJob (artifacts : List String) (job : Job) : Job :=
  { v2FetchingJob job with
      status := JobStatus.completed,
      progress := 100,
      message := "Alignment completed successfully!",
      results := some artifacts }

/-- Variant 2, lines 610-617: the completion snapshot after the artifacts
request threw; the job still completes, with no artifact list stored. -/
def v2CompletedNoListJob (job : Job) : Job :=
  { v2FetchingJob job with
      status := JobStatus.completed,
      progress := 100,
      message := "Processing completed! Check GitHub Actions for files." }

/-- Variant 2, lines 620-627: the failure snapshot for a completed run whose
conclusion is not `success`. -/
def v2FailedRunJob (conclusion : Option Conclusion) (job : Job) : Job :=
  let c := conclusionText conclusion
  { job with status := JobStatus.failed,
             error := some s!"GitHub Actions workflow failed: {c}",
             message := "Processing failed. Check GitHub Actions for details." }

/-- One iteration of variant 2 `pollForCompletion` (lines 553-644).  Same
reading as `pollStep1`; on finding a run the closure first stores
`job.workflowRunId = recentRun.id` (line 581), a run that is neither in
progress nor completed (still queued) falls through to the next poll, and a
throw from `getWorkflowArtifacts` is caught at lines 610-618, which still
reports completion. -/
def pollStep2 (startTime now : Int) (job : Job) (obs : PollObs) :
    List Job × Job × Bool :=
  let elapsedTime := now - startTime
  if maxWaitTime2 < elapsedTime then
    ([v2TimeoutJob job], v2TimeoutJob job, false)
  else
    match obs with
    | PollObs.pollErr => ([], job, true)
    | PollObs.runs workflows arts =>
      match workflows.find? (recentRunPred startTime) with
      | none =>
        ([v2WaitingJob elapsedTime job], v2WaitingJob elapsedTime job, true)
      | some run =>
        let job := { job with workflowRunId := some run.id }
        if run.status = RunStatus.in_progress then
          ([v2InProgressJob job], v2InProgressJob job, true)
        else if run.status = RunStatus.completed then
          if run.conclusion = some Conclusion.success then
            match arts with
            | ArtifactsResult.ok artifacts =>
              ([v2FetchingJob job, v2CompletedJob artifacts job],
               v2CompletedJob artifacts job, false)
            | ArtifactsResult.err =>
              ([v2FetchingJob job, v2CompletedNoListJob job],
               v2CompletedNoListJob job, false)
          else
            ([v2FailedRunJob run.conclusion job], v2FailedRunJob run.conclusion job, false)
        else
          ([], job, true)

/-- Variant 1 polling loop: run the scheduled iterations in order, each tagged
with its wall-clock time and what the network returns then.  Once an iteration
does not reschedule (the source `return`s before its `setTimeout`), the
remaining entries are never consumed. -/
def pollTrace1 (startTime : Int) (job : Job) : List (Int × PollObs) → List Job
  | [] => []
  | (now, obs) :: rest =>
    let step := pollStep1 startTime now job obs
    if step.2.2 then step.1 ++ pollTrace1 startTime step.2.1 rest else step.1

/-- Variant 2 polling loop, same reading as `pollTrace1`. -/
def pollTrace2 (startTime : Int) (job : Job) : List (Int × PollObs) → List Job
  | [] => []
  | (now, obs) :: rest =>
    let step := pollStep2 startTime now job obs
    if step.2.2 then step.1 ++ pollTrace2 startTime step.2.1 rest else step.1

/-- A polling iteration that, executed by variant 2, reports completion: it
lies within the time budget, its runs list yields a `recentRun` whose status is
`completed` with conclusion `success`. -/
def successObs2 (startTime : Int) (e : Int × PollObs) : Bool :=
  match e with
  | (_, PollObs.pollErr) => false
  | (now, PollObs.runs workflows _) =>
    decide (now - startTime ≤ maxWaitTime2) &&
      match workflows.find? (recentRunPred startTime) with
      | none => false
      | some run =>
        run.status == RunStatus.completed && run.conclusion == some Conclusion.success

/-- A polling iteration that, executed by variant 1, reports completion: it
lies within the time budget, its runs list yields a `relevantRun` whose
conclusion is `success`, and the artifacts request of the same iteration
resolves (variant 1 completes only when the artifact fetch does not throw). -/
def successObs1 (startTime : Int) (e : Int × PollObs) : Bool :=
  match e with
  | (_, PollObs.pollErr) => false
  | (now, PollObs.runs workflows arts) =>
    decide (now - startTime ≤ maxWaitTime1) &&
      (match relevantRun startTime workflows with
       | none => false
       | some run => run.conclusion == some Conclusion.success) &&
      (match arts with
       | ArtifactsResult.ok _ => true
       | ArtifactsResult.err => false)

/-- Variant 2, lines 520-525: the initial job. -/
def v2Job0 : Job :=
  { jobId := "", status := JobStatus.starting, progress := 0, message := "Initializing..." }

/-- Variant 2, lines 530-532. -/
def v2Job5 : Job :=
  { v2Job0 with message := "Testing GitHub connection...", progress := 5 }

/-- Variant 2, lines 535-537. -/
def v2Job15 : Job :=
  { v2Job5 with message := "Triggering GitHub Actions workflow...", progress := 15 }

/-- Variant 2, lines 542-546: the job as polling begins. -/
def v2Job25 (jobId : String) : Job :=
  { v2Job15 with
      jobId := jobId,
      status := JobStatus.processing,
      message := "Workflow started! Waiting for processing...",
      progress := 25 }

/-- Variant 2, lines 651-658: the job reported when `api.startAlignment` throws. -/
def v2FailJob (errMsg : String) : Job :=
  { jobId := "", status := JobStatus.failed, progress := 0,
    message := "Failed to start alignment", error := some errMsg }

/-- One invocation of variant 2 `startAlignment` (lines 512-662) as the
sequence of `setCurrentJob` snapshots it reports.  `dispatchOk` tells whether
`api.startAlignment` resolved (token present, connection test and dispatch POST
2xx); `errMsg` is the thrown message otherwise; `startTime` is the dispatch
time and `obs` the scheduled polling iterations. -/
def exec2 (dispatchOk : Bool) (jobId errMsg : String) (startTime : Int)
    (obs : List (Int × PollObs)) : List Job :=
  if dispatchOk then
    [v2Job0, v2Job5, v2Job15, v2Job25 jobId] ++ pollTrace2 startTime (v2Job25 jobId) obs
  else
    [v2Job0, v2Job5, v2Job15, v2FailJob errMsg]

/-! Variant 1 `startAlignment` (lines 191-290) before polling begins, and its
`setIsProcessing` behaviour: the `finally` clause of lines 287-289 turns
`isProcessing` off as soon as the first poll has merely been scheduled. -/

/-- Variant 1, lines 200-205. -/
def v1JobStarting : Job :=
  { jobId := "", status := JobStatus.starting, progress := 0,
    message := "Preparing to start alignment..." }

/-- Variant 1, lines 209-211. -/
def v1Job10 : Job :=
  { v1JobStarting with message := "Starting alignment process...", progress := 10 }

/-- Variant 1, lines 214-218: the job as polling begins. -/
def v1Job30 (jobId : String) : Job :=
  { v1Job10 with
      jobId := jobId,
      status := JobStatus.processing,
      message := "AI is analyzing audio and aligning lyrics...",
      progress := 30 }

/-- Variant 1, lines 279-285: the job reported when `api.startAlignment` throws. -/
def v1FailJob (errMsg : String) : Job :=
  { jobId := "", status := JobStatus.failed, progress := 0,
    message := "Failed to start alignment", error := some errMsg }

/-- A state effect of the hook: a `setCurrentJob`, a `setIsProcessing`, or the
scheduling of the first `pollForCompletion` timer. -/
inductive Effect
  | setJob (j : Job)
  | setProcessing (b : Bool)
  | schedulePoll (delayMs : Nat)
deriving DecidableEq

/-- Variant 1 `startAlignment` (lines 191-290) as its sequence of effects up to
the end of the invocation: the poll itself runs later from the timer.  On a
dispatch failure the catch of lines 278-286 reports a fresh failed job; either
way the `finally` emits `setIsProcessing false` last. -/
def startAlignmentEffects1 (dispatchOk : Bool) (jobId errMsg : String) : List Effect :=
  Effect.setProcessing true ::
  Effect.setJob v1JobStarting ::
  Effect.setJob v1Job10 ::
  (if dispatchOk then
    [Effect.setJob (v1Job30 jobId), Effect.schedulePoll 5000, Effect.setProcessing false]
  else
    [Effect.setJob (v1FailJob errMsg), Effect.setProcessing false])

/-! The two `useState` cells of the hook, and the reset functions.  Neither
variant 1 `resetJob` (lines 295-298) nor variant 2 `reset` (lines 667-671)
touches a timer: the source keeps no timer handle and calls no `clearTimeout`. -/

/-- The hook state: the two `useState` cells plus whether a
`setTimeout(pollForCompletion, ...)` callback is pending. -/
structure HookState where
  currentJob : Option Job
  isProcessing : Bool
  pollTimerPending : Bool
deriving DecidableEq

/-- Variant 1 `resetJob` (lines 295-298) and variant 2 `reset` (lines 667-671):
`setCurrentJob(null); setIsProcessing(false)`.  The source holds no timer
handle and contains no `clearTimeout` and no cancellation flag, so the pending
timer is untouched. -/
def resetJob (s : HookState) : HookState :=
  { s with currentJob := none, isProcessing := false }

/-- A pending variant-2 poll timer firing: the `pollForCompletion` closure
still holds its own `job` object and reports through `setCurrentJob` /
`setIsProcessing` (lines 561, 587, 606-616, 625-633) whatever the hook state
is by then. -/
def firePendingPoll (startTime now : Int) (closureJob : Job) (obs : PollObs)
    (s : HookState) : HookState :=
  if s.pollTimerPending then
    let step := pollStep2 startTime now closureJob obs
    { currentJob :=
        match step.1.getLast? with
        | some j => some j
        | none => s.currentJob,
      isProcessing := if step.2.2 then s.isProcessing else false,
      pollTimerPending := step.2.2 }
  else s

/-! Variant 3 (lines 716-952): a sequential `async` function.  Its state is
`progress : Nat`, `error : Option String`, `result : Option AlignmentResult`. -/

/-- Variant 3, line 847: `maxPollAttempts = 60`. -/
def maxPollAttempts3 : Nat := 60

/-- Variant 3 status-poll loop body (lines 849-879):
`while (currentRun.status !== completed && pollAttempts < maxPollAttempts)`,
each iteration incrementing `pollAttempts` and replacing `currentRun` by the
parsed response when the status request succeeds (`snap n = none` models a
thrown or non-2xx request, which leaves `currentRun` unchanged).  The fuel is
`maxPollAttempts - pollAttempts`; the result is the final `currentRun` with
the final `pollAttempts` counter. -/
def v3PollAux (snap : Nat → Option RemoteRun) :
    Nat → RemoteRun → Nat → RemoteRun × Nat
  | 0, current, attempts => (current, attempts)
  | Nat.succ fuel, current, attempts =>
    if current.status = RunStatus.completed then (current, attempts)
    else v3PollAux snap fuel ((snap (attempts + 1)).getD current) (attempts + 1)

/-- Variant 3 poll loop from `pollAttempts = 0` over the found `workflowRun`. -/
def v3Poll (snap : Nat → Option RemoteRun) (workflowRun : RemoteRun) : RemoteRun × Nat :=
  v3PollAux snap maxPollAttempts3 workflowRun 0

/-- An artifact as the variant-3 artifacts endpoint returns it. -/
structure V3Artifact where
  name : String
  archive_download_url : String
deriving DecidableEq

/-- Variant 3 `AlignmentResult` (lines 702-705). -/
structure V3Result where
  lrcContent : String
  downloadUrl : String
deriving DecidableEq

/-- What the variant-3 artifacts request returns: a parsed artifact list, or a
non-2xx response (line 924: `throw new Error(Failed to fetch artifacts)`). -/
inductive V3ArtifactsResp
  | ok (artifacts : List V3Artifact)
  | httpErr
deriving DecidableEq

/-- The terminal surface of one variant-3 `startAlignment`: either `setError`
was called with a message (there is no separate timed-out state), or a result
was reported with progress 100. -/
inductive V3Outcome
  | errorOut (msg : String)
  | done (result : V3Result)
deriving DecidableEq

/-- JS `Array.prototype.includes` on the characters of a string, for the
`a.name.includes(...)` tests of line 910. -/
def listIncludes (hay needle : List Char) : Bool :=
  match hay with
  | [] => needle.isEmpty
  | _ :: t => needle.isPrefixOf hay || listIncludes t needle

/-- JS `String.prototype.includes`. -/
def strIncludes (s sub : String) : Bool :=
  listIncludes s.data sub.data

/-- Variant 3 step 4 (lines 893-934): fetch artifacts for the completed run.
An empty artifact list throws `No artifacts were generated` (line 921) and a
non-2xx response throws `Failed to fetch artifacts` (line 924); both throws
land in the catch of lines 926-934, which reports the fallback result and
progress 100.  Returns the `setResult` value and the final progress. -/
def v3ArtifactPhase (audioFileName : String) (resp : V3ArtifactsResp) : V3Result × Nat :=
  match resp with
  | V3ArtifactsResp.ok artifacts =>
    match artifacts with
    | a0 :: rest =>
      let lrcArtifact := ((a0 :: rest).find? fun a =>
        strIncludes a.name "lrc" || strIncludes a.name "lyrics").getD a0
      ({ lrcContent := s!"Demo LRC file for: {audioFileName}",
         downloadUrl := lrcArtifact.archive_download_url }, 100)
    | [] =>
      ({ lrcContent := s!"Alignment completed for: {audioFileName}",
         downloadUrl := "#" }, 100)
  | V3ArtifactsResp.httpErr =>
    ({ lrcContent := s!"Alignment completed for: {audioFileName}",
       downloadUrl := "#" }, 100)

/-- Variant 3, line 886: the thrown failure message for a conclusion rendered
as a string. -/
def v3FailureMsg (c : String) : String :=
  s!"Workflow failed with conclusion: {c}"

/-- Variant 3 after the poll loop (lines 881-934): a run that never reached
`completed` throws at line 882, a conclusion other than `success` throws at
line 886, and both throws land in the outer catch (lines 936-938), which
reports them through `setError` — the same channel a dispatch or workflow
failure uses.  Otherwise the artifact phase reports a result. -/
def v3Finish (currentRun : RemoteRun) (resp : V3ArtifactsResp)
    (audioFileName : String) : V3Outcome :=
  if currentRun.status ≠ RunStatus.completed then
    V3Outcome.errorOut "Workflow did not complete within the expected time"
  else if currentRun.conclusion ≠ some Conclusion.success then
    V3Outcome.errorOut (v3FailureMsg (conclusionText currentRun.conclusion))
  else
    V3Outcome.done (v3ArtifactPhase audioFileName resp).1

/-! The dispatch operations of the three variants, modelled up to the point
where the work request leaves the client: what matters is whether a network
request is attempted at all, with which credential and which payload. -/

/-- The outcome of a dispatch attempt: a configuration error raised before any
request, a failure after a network round-trip, or the dispatch request as it
goes out. -/
inductive DispatchAttempt (α : Type)
  | configError (msg : String)
  | failedAfterNetwork
  | networkRequest (request : α)
deriving DecidableEq

/-- Variant 1 `client_payload` (lines 99-104). -/
structure Payload1 where
  audio_url : String
  lyrics_text : String
  format : String
  job_id : String
deriving DecidableEq

/-- A dispatch POST as variant 1 attempts it: the token that goes into the
`Authorization` header (`none` renders as the literal `token undefined`) and
the payload. -/
structure Request1 where
  auth : Option String
  client_payload : Payload1
deriving DecidableEq

/-- Variant 1 `startAlignment` (lines 76-119): there is no token check; the
dispatch fetch is attempted whether or not a token is configured, and a
missing token surfaces only as the HTTP error of the response (line 111). -/
def startAlignment1 (token : Option String)
    (jobId audioUrl lyricsText outputFormat : String) : DispatchAttempt Request1 :=
  DispatchAttempt.networkRequest
    { auth := token,
      client_payload :=
        { audio_url := audioUrl, lyrics_text := lyricsText,
          format := outputFormat, job_id := jobId } }

/-- Variant 2, line 373: the message `testConnection` returns with no token. -/
def tokenMissingMsg : String :=
  "GitHub token not found. Please check VITE_GITHUB_TOKEN in Netlify environment variables."

/-- What variant 2 `testConnection` (lines 368-391) produces: the no-token
failure is returned before any request; otherwise a GET to the repo endpoint
decides `ok`. -/
inductive ConnTest
  | configError (msg : String)
  | checked (ok : Bool)
deriving DecidableEq

/-- Variant 2 `testConnection` (lines 368-391). -/
def testConnection (token : Option String) (connOk : Bool) : ConnTest :=
  match token with
  | none => ConnTest.configError tokenMissingMsg
  | some _ => ConnTest.checked connOk

/-- Variant 2, lines 409-414: the file metadata placed in the payload.  The
source field `type` is a Lean keyword and is called `filetype` here. -/
structure FileInfo where
  filename : String
  size : Nat
  filetype : String
deriving DecidableEq

/-- Variant 2, lines 417-419: lyrics over 1000 characters are truncated to
`substring(0, 1000)` plus a three-character ellipsis before the send. -/
def truncatedLyrics (lyricsText : String) : String :=
  if lyricsText.length > 1000 then lyricsText.take 1000 ++ "..." else lyricsText

/-- Variant 2 `client_payload` (lines 421-431). -/
structure Payload2 where
  job_id : String
  audio_file_info : FileInfo
  lyrics_text : String
  format : String
  demo_mode : Bool
deriving DecidableEq

/-- A dispatch POST as variant 2 attempts it. -/
structure Request2 where
  auth : Option String
  client_payload : Payload2
deriving DecidableEq

/-- Variant 2 `startAlignment` (lines 396-452): `testConnection` runs first,
so a missing token is surfaced as its configuration error before any request;
a failed connection test throws after that GET; otherwise the dispatch POST
goes out with the truncated lyrics. -/
def startAlignment2 (token : Option String) (connOk : Bool) (jobId : String)
    (file : FileInfo) (lyricsText outputFormat : String) : DispatchAttempt Request2 :=
  match testConnection token connOk with
  | ConnTest.configError msg => DispatchAttempt.configError msg
  | ConnTest.checked false => DispatchAttempt.failedAfterNetwork
  | ConnTest.checked true =>
    DispatchAttempt.networkRequest
      { auth := token,
        client_payload :=
          { job_id := jobId, audio_file_info := file,
            lyrics_text := truncatedLyrics lyricsText,
            format := outputFormat, demo_mode := true } }

/-- Variant 3 `client_payload` (lines 758-763): the lyrics go out untruncated
and there is no job identifier. -/
structure Payload3 where
  fileName : String
  fileSize : Nat
  lyrics : String
deriving DecidableEq

/-- A dispatch POST as variant 3 attempts it. -/
structure Request3 where
  auth : Option String
  client_payload : Payload3
deriving DecidableEq

/-- Variant 3 `startAlignment`, token check and dispatch (lines 729-770): a
missing token is reported through `setError` before any request (lines
734-739); otherwise the dispatch POST goes out. -/
def startAlignment3 (token : Option String) (fileName : String) (fileSize : Nat)
    (lyrics : String) : DispatchAttempt Request3 :=
  match token with
  | none => DispatchAttempt.configError "GitHub token is not configured"
  | some t =>
    DispatchAttempt.networkRequest
      { auth := some t,
        client_payload := { fileName := fileName, fileSize := fileSize, lyrics := lyrics } }

/-! Concrete inputs used by the closed theorems below. -/

/-- A run created 40 s after a dispatch at time 0: outside the window
[-5 s, +30 s], already running. -/
def lateRun : RemoteRun :=
  { id := 11, created_at := 40000, status := RunStatus.in_progress, conclusion := none }

/-- A run that never completes. -/
def stuckRun : RemoteRun :=
  { id := 41, created_at := 0, status := RunStatus.in_progress, conclusion := none }

/-- A run that completed with conclusion `failure`. -/
def failedRun : RemoteRun :=
  { id := 42, created_at := 0, status := RunStatus.completed,
    conclusion := some Conclusion.failure }

/-- A run that completed with conclusion `success`. -/
def succeededRun : RemoteRun :=
  { id := 7, created_at := 0, status := RunStatus.completed,
    conclusion := some Conclusion.success }

/-- A lyrics text of 1001 characters, one over the truncation threshold. -/
def longLyrics : String := String.mk (List.replicate 1001 'a')

/-- A hook state with a job being polled and the poll timer pending. -/
def pendingState : HookState :=
  { currentJob := some (v2Job25 "job_1"), isProcessing := true, pollTimerPending := true }

/-! Helper lemmas on the variant-2 polling trace. -/

/-- Invariant of the variant-2 polling loop from a job in the polling state
(status `processing`, progress at most 80, as `v2Job25` is): the reported
progress values form a non-decreasing chain starting no lower than the entry
progress, stay at most 100 and reach 100 only on a completed job, and a
completed job is reported only when some consumed iteration observed a
matching run that completed with conclusion `success`. -/
theorem pollTrace2_inv (startTime : Int) (obs : List (Int × PollObs)) :
    ∀ job : Job, job.status = JobStatus.processing → job.progress ≤ 80 →
      List.Chain' (· ≤ ·)
        (job.progress :: (pollTrace2 startTime job obs).map Job.progress) ∧
      ∀ j ∈ pollTrace2 startTime job obs,
        j.progress ≤ 100 ∧
        (j.progress = 100 → j.status = JobStatus.completed) ∧
        (j.status = JobStatus.completed → obs.any (successObs2 startTime) = true) := by
  induction obs with
  | nil =>
    intro job hst hp
    simp [pollTrace2]
  | cons e rest ih =>
    obtain ⟨now, o⟩ := e
    intro job hst hp
    by_cases htime : maxWaitTime2 < now - startTime
    · have htr : pollTrace2 startTime job ((now, o) :: rest) = [v2TimeoutJob job] := by
        cases o <;> simp [pollTrace2, pollStep2, htime]
      rw [htr]
      refine ⟨?_, fun j hj => ?_⟩
      · simp [v2TimeoutJob, List.chain'_cons]
        omega
      · rw [List.mem_singleton] at hj
        subst hj
        refine ⟨by simp [v2TimeoutJob], ?_, ?_⟩
        · intro h100
          simp [v2TimeoutJob] at h100
        · intro hc
          simp [v2TimeoutJob] at hc
    · cases o with
      | pollErr =>
        have htr : pollTrace2 startTime job ((now, PollObs.pollErr) :: rest) =
            pollTrace2 startTime job rest := by
          simp [pollTrace2, pollStep2, htime]
        rw [htr]
        obtain ⟨ihc, ihm⟩ := ih job hst hp
        refine ⟨ihc, fun j hj => ?_⟩
        obtain ⟨h1, h2, h3⟩ := ihm j hj
        exact ⟨h1, h2, fun hc => by simp [List.any_cons, h3 hc]⟩
      | runs wfs arts =>
        cases hfind : wfs.find? (recentRunPred startTime) with
        | none =>
          have htr : pollTrace2 startTime job ((now, PollObs.runs wfs arts) :: rest) =
              v2WaitingJob (now - startTime) job ::
                pollTrace2 startTime (v2WaitingJob (now - startTime) job) rest := by
            simp [pollTrace2, pollStep2, htime, hfind]
          have hw1 : (v2WaitingJob (now - startTime) job).status = JobStatus.processing := by
            simp [v2WaitingJob, hst]
          have hw2 : (v2WaitingJob (now - startTime) job).progress = job.progress := by
            simp [v2WaitingJob]
          obtain ⟨ihc, ihm⟩ := ih _ hw1 (by rw [hw2]; exact hp)
          rw [htr]
          refine ⟨?_, fun j hj => ?_⟩
          · rw [List.map_cons, List.chain'_cons]
            exact ⟨by simp [hw2], by rw [hw2] at ihc; exact ihc⟩
          · rcases List.mem_cons.mp hj with hj | hj
            · subst hj
              refine ⟨by rw [hw2]; omega, fun h100 => ?_, fun hc => ?_⟩
              · rw [hw2] at h100
                omega
              · rw [hw1] at hc
                cases hc
            · obtain ⟨h1, h2, h3⟩ := ihm j hj
              exact ⟨h1, h2, fun hc => by simp [List.any_cons, h3 hc]⟩
        | some run =>
          have hle := not_lt.mp htime
          by_cases hsp : run.status = RunStatus.in_progress
          · have htr : pollTrace2 startTime job ((now, PollObs.runs wfs arts) :: rest) =
                v2InProgressJob { job with workflowRunId := some run.id } ::
                  pollTrace2 startTime
                    (v2InProgressJob { job with workflowRunId := some run.id }) rest := by
              simp [pollTrace2, pollStep2, htime, hfind, hsp]
            have hw1 : (v2InProgressJob { job with workflowRunId := some run.id }).status =
                JobStatus.processing := by
              simp [v2InProgressJob, hst]
            have hw2 : (v2InProgressJob { job with workflowRunId := some run.id }).progress =
                min (job.progress + 10) 80 := by
              simp [v2InProgressJob]
            obtain ⟨ihc, ihm⟩ := ih _ hw1 (by rw [hw2]; omega)
            rw [htr]
            refine ⟨?_, fun j hj => ?_⟩
            · rw [List.map_cons, List.chain'_cons]
              refine ⟨by rw [hw2]; omega, by rw [hw2] at ihc; rw [hw2]; exact ihc⟩
            · rcases List.mem_cons.mp hj with hj | hj
              · subst hj
                refine ⟨by rw [hw2]; omega, fun h100 => ?_, fun hc => ?_⟩
                · rw [hw2] at h100
                  omega
                · rw [hw1] at hc
                  cases hc
              · obtain ⟨h1, h2, h3⟩ := ihm j hj
                exact ⟨h1, h2, fun hc => by simp [List.any_cons, h3 hc]⟩
          · by_cases hsc : run.status = RunStatus.completed
            · by_cases hcs : run.conclusion = some Conclusion.success
              · have hobs : ((now, PollObs.runs wfs arts) :: rest).any
                    (successObs2 startTime) = true := by
                  simp [List.any_cons, successObs2, hfind, hsc, hcs, hle]
                cases arts with
                | ok artifacts =>
                  have htr : pollTrace2 startTime job
                      ((now, PollObs.runs wfs (ArtifactsResult.ok artifacts)) :: rest) =
                      [v2FetchingJob { job with workflowRunId := some run.id },
                       v2CompletedJob artifacts { job with workflowRunId := some run.id }] := by
                    simp [pollTrace2, pollStep2, htime, hfind, hsp, hsc, hcs]
                  rw [htr]
                  refine ⟨?_, fun j hj => ?_⟩
                  · simp [v2FetchingJob, v2CompletedJob, List.chain'_cons]
                    omega
                  · rcases List.mem_cons.mp hj with hj | hj
                    · subst hj
                      refine ⟨by simp [v2FetchingJob], fun h100 => ?_, fun hc => ?_⟩
                      · simp [v2FetchingJob] at h100
                      · simp [v2FetchingJob, hst] at hc
                    · rw [List.mem_singleton] at hj
                      subst hj
                      exact ⟨by simp [v2CompletedJob, v2FetchingJob],
                             fun _ => by simp [v2CompletedJob, v2FetchingJob],
                             fun _ => hobs⟩
                | err =>
                  have htr : pollTrace2 startTime job
                      ((now, PollObs.runs wfs ArtifactsResult.err) :: rest) =
                      [v2FetchingJob { job with workflowRunId := some run.id },
                       v2CompletedNoListJob { job with workflowRunId := some run.id }] := by
                    simp [pollTrace2, pollStep2, htime, hfind, hsp, hsc, hcs]
                  rw [htr]
                  refine ⟨?_, fun j hj => ?_⟩
                  · simp [v2FetchingJob, v2CompletedNoListJob, List.chain'_cons]
                    omega
                  · rcases List.mem_cons.mp hj with hj | hj
                    · subst hj
                      refine ⟨by simp [v2FetchingJob], fun h100 => ?_, fun hc => ?_⟩
                      · simp [v2FetchingJob] at h100
                      · simp [v2FetchingJob, hst] at hc
                    · rw [List.mem_singleton] at hj
                      subst hj
                      exact ⟨by simp [v2CompletedNoListJob, v2FetchingJob],
                             fun _ => by simp [v2CompletedNoListJob, v2FetchingJob],
                             fun _ => hobs⟩
              · have htr : pollTrace2 startTime job ((now, PollObs.runs wfs arts) :: rest) =
                    [v2FailedRunJob run.conclusion { job with workflowRunId := some run.id }] := by
                  cases arts <;>
                    simp [pollTrace2, pollStep2, htime, hfind, hsp, hsc, hcs]
                rw [htr]
                refine ⟨?_, fun j hj => ?_⟩
                · simp [v2FailedRunJob, List.chain'_cons]
                · rw [List.mem_singleton] at hj
                  subst hj
                  refine ⟨by simp [v2FailedRunJob]; omega, fun h100 => ?_, fun hc => ?_⟩
                  · simp [v2FailedRunJob] at h100
                    omega
                  · simp [v2FailedRunJob] at hc
            · have htr : pollTrace2 startTime job ((now, PollObs.runs wfs arts) :: rest) =
                  pollTrace2 startTime { job with workflowRunId := some run.id } rest := by
                simp [pollTrace2, pollStep2, htime, hfind, hsp, hsc]
              have hw1 : (Job.mk job.jobId job.status job.progress job.message job.results
                  job.error (some run.id)).status = JobStatus.processing := by
                simpa using hst
              obtain ⟨ihc, ihm⟩ := ih { job with workflowRunId := some run.id }
                (by simpa using hst) (by simpa using hp)
              rw [htr]
              refine ⟨by simpa using ihc, fun j hj => ?_⟩
              obtain ⟨h1, h2, h3⟩ := ihm j hj
              exact ⟨h1, h2, fun hc => by simp [List.any_cons, h3 hc]⟩

/-- The variant-2 polling loop reports the `timeout` status at most once: the
iteration that reports it schedules no further poll, and no other snapshot of
a job being polled carries that status. -/
theorem pollTrace2_timeout_count (startTime : Int) (obs : List (Int × PollObs)) :
    ∀ job : Job, job.status = JobStatus.processing →
      ((pollTrace2 startTime job obs).filter
        (fun j => j.status == JobStatus.timeout)).length ≤ 1 := by
  induction obs with
  | nil =>
    intro job hst
    simp [pollTrace2]
  | cons e rest ih =>
    obtain ⟨now, o⟩ := e
    intro job hst
    by_cases htime : maxWaitTime2 < now - startTime
    · have htr : pollTrace2 startTime job ((now, o) :: rest) = [v2TimeoutJob job] := by
        cases o <;> simp [pollTrace2, pollStep2, htime]
      rw [htr]
      simp [v2TimeoutJob]
    · cases o with
      | pollErr =>
        have htr : pollTrace2 startTime job ((now, PollObs.pollErr) :: rest) =
            pollTrace2 startTime job rest := by
          simp [pollTrace2, pollStep2, htime]
        rw [htr]
        exact ih job hst
      | runs wfs arts =>
        cases hfind : wfs.find? (recentRunPred startTime) with
        | none =>
          have htr : pollTrace2 startTime job ((now, PollObs.runs wfs arts) :: rest) =
              v2WaitingJob (now - startTime) job ::
                pollTrace2 startTime (v2WaitingJob (now - startTime) job) rest := by
            simp [pollTrace2, pollStep2, htime, hfind]
          rw [htr]
          rw [List.filter_cons]
          have : ((v2WaitingJob (now - startTime) job).status == JobStatus.timeout) = false := by
            simp [v2WaitingJob, hst]
          rw [this]
          simp only [if_false, Bool.false_eq_true]
          exact ih _ (by simp [v2WaitingJob, hst])
        | some run =>
          by_cases hsp : run.status = RunStatus.in_progress
          · have htr : pollTrace2 startTime job ((now, PollObs.runs wfs arts) :: rest) =
                v2InProgressJob { job with workflowRunId := some run.id } ::
                  pollTrace2 startTime
                    (v2InProgressJob { job with workflowRunId := some run.id }) rest := by
              simp [pollTrace2, pollStep2, htime, hfind, hsp]
            rw [htr, List.filter_cons]
            have : ((v2InProgressJob { job with workflowRunId := some run.id }).status ==
                JobStatus.timeout) = false := by
              simp [v2InProgressJob, hst]
            rw [this]
            simp only [if_false, Bool.false_eq_true]
            exact ih _ (by simp [v2InProgressJob, hst])
          · by_cases hsc : run.status = RunStatus.completed
            · by_cases hcs : run.conclusion = some Conclusion.success
              · cases arts with
                | ok artifacts =>
                  have htr : pollTrace2 startTime job
                      ((now, PollObs.runs wfs (ArtifactsResult.ok artifacts)) :: rest) =
                      [v2FetchingJob { job with workflowRunId := some run.id },
                       v2CompletedJob artifacts { job with workflowRunId := some run.id }] := by
                    simp [pollTrace2, pollStep2, htime, hfind, hsp, hsc, hcs]
                  rw [htr]
                  simp [v2FetchingJob, v2CompletedJob, hst]
                | err =>
                  have htr : pollTrace2 startTime job
                      ((now, PollObs.runs wfs ArtifactsResult.err) :: rest) =
                      [v2FetchingJob { job with workflowRunId := some run.id },
                       v2CompletedNoListJob { job with workflowRunId := some run.id }] := by
                    simp [pollTrace2, pollStep2, htime, hfind, hsp, hsc, hcs]
                  rw [htr]
                  simp [v2FetchingJob, v2CompletedNoListJob, hst]
              · have htr : pollTrace2 startTime job ((now, PollObs.runs wfs arts) :: rest) =
                    [v2FailedRunJob run.conclusion { job with workflowRunId := some run.id }] := by
                  cases arts <;>
                    simp [pollTrace2, pollStep2, htime, hfind, hsp, hsc, hcs]
                rw [htr]
                simp [v2FailedRunJob]
            · have htr : pollTrace2 startTime job ((now, PollObs.runs wfs arts) :: rest) =
                  pollTrace2 startTime { job with workflowRunId := some run.id } rest := by
                simp [pollTrace2, pollStep2, htime, hfind, hsp, hsc]
              rw [htr]
              exact ih _ (by simpa using hst)

/-- In the variant-1 polling loop, a job snapshot with status `completed` is
reported only when some consumed iteration observed a relevant run whose
conclusion was `success` and whose artifact fetch resolved; the timeout,
plain-run, re-polling and failure snapshots never carry that status when the
job entered the loop in the `processing` state. -/
theorem pollTrace1_completed_success (startTime : Int) (obs : List (Int × PollObs)) :
    ∀ job : Job, job.status = JobStatus.processing →
      ∀ j ∈ pollTrace1 startTime job obs, j.status = JobStatus.completed →
        obs.any (successObs1 startTime) = true := by
  induction obs with
  | nil =>
    intro job hst j hj
    simp [pollTrace1] at hj
  | cons e rest ih =>
    obtain ⟨now, o⟩ := e
    intro job hst j hj hc
    by_cases htime : maxWaitTime1 < now - startTime
    · have htr : pollTrace1 startTime job ((now, o) :: rest) = [v1TimeoutJob job] := by
        cases o <;> simp [pollTrace1, pollStep1, htime]
      rw [htr, List.mem_singleton] at hj
      subst hj
      simp [v1TimeoutJob] at hc
    · cases o with
      | pollErr =>
        have htr : pollTrace1 startTime job ((now, PollObs.pollErr) :: rest) =
            pollTrace1 startTime job rest := by
          simp [pollTrace1, pollStep1, htime]
        rw [htr] at hj
        simp [List.any_cons, ih job hst j hj hc]
      | runs wfs arts =>
        cases hfind : relevantRun startTime wfs with
        | none =>
          have htr : pollTrace1 startTime job ((now, PollObs.runs wfs arts) :: rest) =
              pollTrace1 startTime job rest := by
            simp [pollTrace1, pollStep1, htime, hfind]
          rw [htr] at hj
          simp [List.any_cons, ih job hst j hj hc]
        | some run =>
          have hrj : (v1RunJob run job).status = JobStatus.processing := by
            simp [v1RunJob, hst]
          by_cases hcs : run.conclusion = some Conclusion.success
          · cases arts with
            | ok artifacts =>
              simp [List.any_cons, successObs1, hfind, hcs, not_lt.mp htime]
            | err =>
              have htr : pollTrace1 startTime job
                  ((now, PollObs.runs wfs ArtifactsResult.err) :: rest) =
                  v1RunJob run job ::
                    pollTrace1 startTime (v1RunJob run job) rest := by
                simp [pollTrace1, pollStep1, htime, hfind, hcs]
              rw [htr] at hj
              rcases List.mem_cons.mp hj with hj | hj
              · subst hj
                rw [hrj] at hc
                cases hc
              · simp [List.any_cons, ih (v1RunJob run job) hrj j hj hc]
          · by_cases hcf : run.conclusion = some Conclusion.failure
            · have htr : pollTrace1 startTime job ((now, PollObs.runs wfs arts) :: rest) =
                  [v1RunJob run job, v1FailedRunJob run job] := by
                simp [pollTrace1, pollStep1, htime, hfind, hcs, hcf]
              rw [htr] at hj
              rcases List.mem_cons.mp hj with hj | hj
              · subst hj
                rw [hrj] at hc
                cases hc
              · rw [List.mem_singleton] at hj
                subst hj
                simp [v1FailedRunJob, v1RunJob] at hc
            · have htr : pollTrace1 startTime job ((now, PollObs.runs wfs arts) :: rest) =
                  v1RunJob run job ::
                    pollTrace1 startTime (v1RunJob run job) rest := by
                simp [pollTrace1, pollStep1, htime, hfind, hcs, hcf]
              rw [htr] at hj
              rcases List.mem_cons.mp hj with hj | hj
              · subst hj
                rw [hrj] at hc
                cases hc
              · simp [List.any_cons, ih (v1RunJob run job) hrj j hj hc]

/-- The entry job of the variant-2 polling loop satisfies the loop invariant. -/
theorem v2Job25_entry (jobId : String) :
    (v2Job25 jobId).status = JobStatus.processing ∧ (v2Job25 jobId).progress = 25 := by
  simp [v2Job25, v2Job15, v2Job5, v2Job0]

/-- The invariant lifted to a whole variant-2 invocation whose dispatch
succeeded. -/
theorem exec2_inv (jobId errMsg : String) (startTime : Int)
    (obs : List (Int × PollObs)) :
    List.Chain' (· ≤ ·) ((exec2 true jobId errMsg startTime obs).map Job.progress) ∧
    ∀ j ∈ exec2 true jobId errMsg startTime obs,
      j.progress ≤ 100 ∧
      (j.progress = 100 → j.status = JobStatus.completed) ∧
      (j.status = JobStatus.completed → obs.any (successObs2 startTime) = true) := by
  obtain ⟨he1, he2⟩ := v2Job25_entry jobId
  obtain ⟨ihc, ihm⟩ := pollTrace2_inv startTime obs (v2Job25 jobId) he1 (by omega)
  rw [he2] at ihc
  constructor
  · show List.Chain' (· ≤ ·) (List.map Job.progress
      ([v2Job0, v2Job5, v2Job15, v2Job25 jobId] ++
        pollTrace2 startTime (v2Job25 jobId) obs))
    rw [List.map_append]
    simp only [List.map_cons, List.map_nil, List.cons_append, List.nil_append]
    rw [List.chain'_cons, List.chain'_cons, List.chain'_cons]
    refine ⟨?_, ?_, ?_, ?_⟩
    · simp [v2Job0, v2Job5]
    · simp [v2Job5, v2Job15, v2Job0]
    · simp [v2Job15, v2Job5, v2Job0, he2]
    · rw [he2]
      exact ihc
  · intro j hj
    have hj' : j = v2Job0 ∨ j = v2Job5 ∨ j = v2Job15 ∨ j = v2Job25 jobId ∨
        j ∈ pollTrace2 startTime (v2Job25 jobId) obs := by
      simpa [exec2] using hj
    rcases hj' with h | h | h | h | h
    · subst h
      refine ⟨?_, fun h100 => ?_, fun hc => ?_⟩ <;> simp_all [v2Job0]
    · subst h
      refine ⟨?_, fun h100 => ?_, fun hc => ?_⟩ <;> simp_all [v2Job5, v2Job0]
    · subst h
      refine ⟨?_, fun h100 => ?_, fun hc => ?_⟩ <;> simp_all [v2Job15, v2Job5, v2Job0]
    · subst h
      refine ⟨?_, fun h100 => ?_, fun hc => ?_⟩ <;>
        simp_all [v2Job25, v2Job15, v2Job5, v2Job0]
    · exact ihm j h


/-- The length of the 1001-character lyrics sample. -/
theorem longLyrics_length : longLyrics.length = 1001 := by
  show (String.mk (List.replicate 1001 'a')).length = 1001
  rw [String.length_mk]
  exact List.length_replicate 1001 'a'

/-- C1 (counterexample): the variant-1 `relevantRun` correlation selects a run
created 40 s after a dispatch at T = 0 — outside the window [T-5s, T+30s] —
because its filter only requires creation after T-60s together with a live
status.  The claim that correlation never selects a run outside the window is
false on the first hook variant. -/
theorem relevantRun_outside_window :
    relevantRun 0 [lateRun] = some lateRun ∧
    isRecentEnough 0 lateRun = false ∧
    30000 < lateRun.created_at - 0 := by
  decide

/-- C1 (amended): the variant-3 `candidateRuns` filter selects exactly the
runs whose creation timestamp lies within [T-5s, T+30s] of the dispatch
timestamp T; the variant-1 `relevantRun` filter instead selects exactly the
runs created after T-60s whose status is `completed` or `in_progress`,
regardless of that window. -/
theorem correlation_window_characterisation :
    ∀ (dispatchTime : Int) (run : RemoteRun) (workflow_runs : List RemoteRun),
      (run ∈ candidateRuns dispatchTime workflow_runs ↔
        run ∈ workflow_runs ∧
          -5000 ≤ run.created_at - dispatchTime ∧
          run.created_at - dispatchTime ≤ 30000) ∧
      (relevantRunPred dispatchTime run = true ↔
        dispatchTime - 60000 < run.created_at ∧
          (run.status = RunStatus.completed ∨ run.status = RunStatus.in_progress)) := by
  intro dispatchTime run workflow_runs
  constructor
  · rw [candidateRuns, List.mem_filter]
    simp [isRecentEnough, and_assoc]
  · simp [relevantRunPred, and_assoc]

/-- C2: in every hook variant, a `completed` job presupposes a successful
conclusion.  Variant 2: any completion reported over a whole invocation is
preceded by an observed run with status `completed` and conclusion `success`,
the completion snapshot carries the fetched (possibly empty) artifact list,
and a consumed failure observation ends the job `failed` — never `completed` —
with no further polls.  Variant 1: a completion reported by its polling loop
is likewise preceded by an observed relevant run with conclusion `success`,
the success step stores the fetched artifact list, and the failure step ends
the job `failed` with no further polls.  Variant 3 reports a result only after
a successful conclusion, a failed conclusion landing in its error channel. -/
theorem completed_iff_success :
    (∀ (dispatchOk : Bool) (jobId errMsg : String) (startTime : Int)
       (obs : List (Int × PollObs)) (j : Job),
        j ∈ exec2 dispatchOk jobId errMsg startTime obs →
        j.status = JobStatus.completed →
        obs.any (successObs2 startTime) = true) ∧
    (∀ (startTime now : Int) (job : Job) (wfs : List RemoteRun)
       (artifacts : List String) (rest : List (Int × PollObs)) (run : RemoteRun),
        now - startTime ≤ maxWaitTime2 →
        wfs.find? (recentRunPred startTime) = some run →
        run.status = RunStatus.completed →
        run.conclusion = some Conclusion.success →
        pollTrace2 startTime job
            ((now, PollObs.runs wfs (ArtifactsResult.ok artifacts)) :: rest) =
          [v2FetchingJob { job with workflowRunId := some run.id },
           v2CompletedJob artifacts { job with workflowRunId := some run.id }] ∧
        (v2CompletedJob artifacts { job with workflowRunId := some run.id }).status =
          JobStatus.completed ∧
        resultArtifacts
            (v2CompletedJob artifacts { job with workflowRunId := some run.id }) =
          artifacts) ∧
    (∀ (startTime now : Int) (job : Job) (wfs : List RemoteRun) (arts : ArtifactsResult)
       (rest : List (Int × PollObs)) (run : RemoteRun),
        now - startTime ≤ maxWaitTime2 →
        wfs.find? (recentRunPred startTime) = some run →
        run.status = RunStatus.completed →
        run.conclusion = some Conclusion.failure →
        pollTrace2 startTime job ((now, PollObs.runs wfs arts) :: rest) =
          [v2FailedRunJob run.conclusion { job with workflowRunId := some run.id }] ∧
        (v2FailedRunJob run.conclusion
            { job with workflowRunId := some run.id }).status = JobStatus.failed) ∧
    (∀ (run : RemoteRun) (resp : V3ArtifactsResp) (name : String),
        (∀ r : V3Result, v3Finish run resp name = V3Outcome.done r →
          run.status = RunStatus.completed ∧ run.conclusion = some Conclusion.success) ∧
        (run.conclusion = some Conclusion.failure →
          ∃ msg, v3Finish run resp name = V3Outcome.errorOut msg)) ∧
    (∀ (startTime : Int) (obs : List (Int × PollObs)) (job : Job),
        job.status = JobStatus.processing →
        ∀ j ∈ pollTrace1 startTime job obs, j.status = JobStatus.completed →
          obs.any (successObs1 startTime) = true) ∧
    (∀ (startTime now : Int) (job : Job) (wfs : List RemoteRun)
       (artifacts : List String) (rest : List (Int × PollObs)) (run : RemoteRun),
        now - startTime ≤ maxWaitTime1 →
        relevantRun startTime wfs = some run →
        run.conclusion = some Conclusion.success →
        pollTrace1 startTime job
            ((now, PollObs.runs wfs (ArtifactsResult.ok artifacts)) :: rest) =
          [v1RunJob run job, v1CompletedJob artifacts run job] ∧
        (v1CompletedJob artifacts run job).status = JobStatus.completed ∧
        resultArtifacts (v1CompletedJob artifacts run job) = artifacts) ∧
    (∀ (startTime now : Int) (job : Job) (wfs : List RemoteRun) (arts : ArtifactsResult)
       (rest : List (Int × PollObs)) (run : RemoteRun),
        now - startTime ≤ maxWaitTime1 →
        relevantRun startTime wfs = some run →
        run.conclusion = some Conclusion.failure →
        pollTrace1 startTime job ((now, PollObs.runs wfs arts) :: rest) =
          [v1RunJob run job, v1FailedRunJob run job] ∧
        (v1FailedRunJob run job).status = JobStatus.failed ∧
        JobStatus.failed ≠ JobStatus.completed) := by
  refine ⟨?_, ?_, ?_, ?_, ?_, ?_, ?_⟩
  · intro dispatchOk jid em st obs j hj hc
    cases dispatchOk with
    | true => exact ((exec2_inv jid em st obs).2 j hj).2.2 hc
    | false =>
      have hj' : j = v2Job0 ∨ j = v2Job5 ∨ j = v2Job15 ∨ j = v2FailJob em := by
        simpa [exec2] using hj
      rcases hj' with h | h | h | h <;> subst h <;>
        simp [v2Job0, v2Job5, v2Job15, v2FailJob] at hc
  · intro st now job wfs artifacts rest run h1 h2 h3 h4
    have htime : ¬ maxWaitTime2 < now - st := not_lt.mpr h1
    refine ⟨?_, by simp [v2CompletedJob, v2FetchingJob], ?_⟩
    · simp [pollTrace2, pollStep2, htime, h2, h3, h4]
    · simp [resultArtifacts, v2CompletedJob, v2FetchingJob]
  · intro st now job wfs arts rest run h1 h2 h3 h4
    have htime : ¬ maxWaitTime2 < now - st := not_lt.mpr h1
    refine ⟨?_, by simp [v2FailedRunJob]⟩
    cases arts <;> simp [pollTrace2, pollStep2, htime, h2, h3, h4]
  · intro run resp name
    constructor
    · intro r hr
      by_cases hs : run.status = RunStatus.completed
      · by_cases hc : run.conclusion = some Conclusion.success
        · exact ⟨hs, hc⟩
        · simp [v3Finish, hs, hc] at hr
      · simp [v3Finish, hs] at hr
    · intro hfail
      by_cases hs : run.status = RunStatus.completed
      · exact ⟨v3FailureMsg (conclusionText run.conclusion),
          by simp [v3Finish, hs, hfail]⟩
      · exact ⟨"Workflow did not complete within the expected time",
          by simp [v3Finish, hs]⟩
  · exact fun startTime obs job => pollTrace1_completed_success startTime obs job
  · intro st now job wfs artifacts rest run h1 h2 h3
    have htime : ¬ maxWaitTime1 < now - st := not_lt.mpr h1
    refine ⟨?_, by simp [v1CompletedJob, v1RunJob], ?_⟩
    · simp [pollTrace1, pollStep1, htime, h2, h3]
    · simp [resultArtifacts, v1CompletedJob, v1RunJob]
  · intro st now job wfs arts rest run h1 h2 h3
    have htime : ¬ maxWaitTime1 < now - st := not_lt.mpr h1
    refine ⟨?_, by simp [v1FailedRunJob, v1RunJob], by decide⟩
    simp [pollTrace1, pollStep1, htime, h2, h3]

/-- C2 (witness): the completion equations of `completed_iff_success` at a
concrete successful run, for variant 2 with an empty artifact list and for
variant 1 with a single `lrc_output` artifact. -/
theorem completed_iff_success_inst :
    (pollTrace2 0 (v2Job25 "job_1")
        [(0, PollObs.runs [succeededRun] (ArtifactsResult.ok []))] =
      [v2FetchingJob { v2Job25 "job_1" with workflowRunId := some succeededRun.id },
       v2CompletedJob [] { v2Job25 "job_1" with workflowRunId := some succeededRun.id }] ∧
    (v2CompletedJob [] { v2Job25 "job_1" with
        workflowRunId := some succeededRun.id }).status = JobStatus.completed ∧
    resultArtifacts (v2CompletedJob [] { v2Job25 "job_1" with
        workflowRunId := some succeededRun.id }) = []) ∧
    (pollTrace1 0 (v1Job30 "job_1")
        [(0, PollObs.runs [succeededRun] (ArtifactsResult.ok ["lrc_output"]))] =
      [v1RunJob succeededRun (v1Job30 "job_1"),
       v1CompletedJob ["lrc_output"] succeededRun (v1Job30 "job_1")] ∧
    (v1CompletedJob ["lrc_output"] succeededRun (v1Job30 "job_1")).status =
      JobStatus.completed ∧
    resultArtifacts (v1CompletedJob ["lrc_output"] succeededRun (v1Job30 "job_1")) =
      ["lrc_output"]) :=
  ⟨completed_iff_success.2.1 0 0 (v2Job25 "job_1") [succeededRun] [] []
    succeededRun (by decide) (by decide) rfl rfl,
   completed_iff_success.2.2.2.2.2.1 0 0 (v1Job30 "job_1") [succeededRun]
    ["lrc_output"] [] succeededRun (by decide) (by decide) rfl⟩

/-- C3 (counterexample): the variant-3 status loop is bounded by a fixed count
of 60 poll attempts, not by wall-clock time since dispatch: polling a run that
never completes consumes exactly 60 attempts, and the resulting outcome is the
`setError` channel — the same channel a confirmed failure conclusion uses —
since this variant has no distinct timed-out state. -/
theorem v3_attempt_bounded_timeout :
    (v3Poll (fun _ => some stuckRun) stuckRun).2 = 60 ∧
    (v3Poll (fun _ => some stuckRun) stuckRun).1 = stuckRun ∧
    v3Finish stuckRun V3ArtifactsResp.httpErr "song.mp3" =
      V3Outcome.errorOut "Workflow did not complete within the expected time" ∧
    v3Finish failedRun V3ArtifactsResp.httpErr "song.mp3" =
      V3Outcome.errorOut "Workflow failed with conclusion: failure" := by
  decide

/-- C3 (amended): in the first two hook variants the timeout is measured as
wall-clock time since dispatch: whatever the iteration observes — a transient
error included — and however many polls went before, once the elapsed time
exceeds `maxWait` the scheduled poll reports the `timeout` status (distinct
from `failed`), consumes none of the remaining schedule, and a variant-2
invocation reports `timeout` at most once.  (Variant 3 instead bounds polling
by 60 attempts and reports non-completion through its error channel.) -/
theorem wallclock_timeout :
    (∀ (startTime now : Int) (job : Job) (o : PollObs) (rest : List (Int × PollObs)),
        maxWaitTime2 < now - startTime →
        pollTrace2 startTime job ((now, o) :: rest) = [v2TimeoutJob job] ∧
        (v2TimeoutJob job).status = JobStatus.timeout ∧
        JobStatus.timeout ≠ JobStatus.failed) ∧
    (∀ (startTime now : Int) (job : Job) (o : PollObs) (rest : List (Int × PollObs)),
        maxWaitTime1 < now - startTime →
        pollTrace1 startTime job ((now, o) :: rest) = [v1TimeoutJob job] ∧
        (v1TimeoutJob job).status = JobStatus.timeout ∧
        (v1TimeoutJob job).progress = job.progress) ∧
    (∀ (dispatchOk : Bool) (jobId errMsg : String) (startTime : Int)
       (obs : List (Int × PollObs)),
        ((exec2 dispatchOk jobId errMsg startTime obs).filter
          (fun j => j.status == JobStatus.timeout)).length ≤ 1) := by
  refine ⟨?_, ?_, ?_⟩
  · intro st now job o rest h
    refine ⟨?_, by simp [v2TimeoutJob], by decide⟩
    cases o <;> simp [pollTrace2, pollStep2, h]
  · intro st now job o rest h
    refine ⟨?_, by simp [v1TimeoutJob], by simp [v1TimeoutJob]⟩
    cases o <;> simp [pollTrace1, pollStep1, h]
  · intro dispatchOk jid em st obs
    cases dispatchOk with
    | false => simp [exec2, v2Job0, v2Job5, v2Job15, v2FailJob]
    | true =>
      have h := pollTrace2_timeout_count st obs (v2Job25 jid) (v2Job25_entry jid).1
      have hpre : exec2 true jid em st obs =
          [v2Job0, v2Job5, v2Job15, v2Job25 jid] ++
            pollTrace2 st (v2Job25 jid) obs := by
        simp [exec2]
      rw [hpre, List.filter_append]
      have hzero : ([v2Job0, v2Job5, v2Job15, v2Job25 jid].filter
          (fun j => j.status == JobStatus.timeout)) = [] := by
        simp [List.filter_cons, v2Job0, v2Job5, v2Job15, v2Job25]
      rw [hzero]
      simpa using h

/-- C3 (witness): the variant-2 timeout equation of `wallclock_timeout` fired
at 8 minutes plus one millisecond, with a transient poll error in flight and a
further scheduled iteration that is never consumed. -/
theorem wallclock_timeout_inst :
    pollTrace2 0 (v2Job25 "job_1")
        [(480001, PollObs.pollErr), (490001, PollObs.pollErr)] =
      [v2TimeoutJob (v2Job25 "job_1")] ∧
    (v2TimeoutJob (v2Job25 "job_1")).status = JobStatus.timeout ∧
    JobStatus.timeout ≠ JobStatus.failed :=
  wallclock_timeout.1 0 480001 (v2Job25 "job_1") PollObs.pollErr
    [(490001, PollObs.pollErr)] (by decide)

/-- C4 (counterexample): when the dispatch fails, variant 2 reports the
progress sequence 0, 5, 15 and then resets it to 0 in the failure snapshot, so
the progress values reported over the lifecycle of that job are not
monotonically non-decreasing. -/
theorem progress_resets_on_dispatch_failure :
    (exec2 false "" "GitHub API error: 401" 0 []).map Job.progress = [0, 5, 15, 0] ∧
    ¬ List.Chain' (· ≤ ·) ((exec2 false "" "GitHub API error: 401" 0 []).map Job.progress) := by
  have h : (exec2 false "" "GitHub API error: 401" 0 []).map Job.progress =
      [0, 5, 15, 0] := by decide
  refine ⟨h, ?_⟩
  rw [h]
  simp [List.chain'_cons]

/-- C4 (amended): within a variant-2 invocation whose dispatch succeeds, the
reported progress values are monotonically non-decreasing and lie in [0, 100],
and the value 100 is reported only on a snapshot whose status is `completed`,
which in turn only happens after an iteration observed a run that completed
with conclusion `success`.  (When the dispatch fails, the failure snapshot
resets the reported progress to 0.) -/
theorem progress_monotone_bounded :
    ∀ (jobId errMsg : String) (startTime : Int) (obs : List (Int × PollObs)),
      List.Chain' (· ≤ ·) ((exec2 true jobId errMsg startTime obs).map Job.progress) ∧
      ∀ j ∈ exec2 true jobId errMsg startTime obs,
        j.progress ≤ 100 ∧
        (j.progress = 100 →
          j.status = JobStatus.completed ∧ obs.any (successObs2 startTime) = true) := by
  intro jid em st obs
  obtain ⟨hc, hm⟩ := exec2_inv jid em st obs
  refine ⟨hc, fun j hj => ?_⟩
  obtain ⟨h1, h2, h3⟩ := hm j hj
  exact ⟨h1, fun h100 => ⟨h2 h100, h3 (h2 h100)⟩⟩

/-- C5 (code bug): `resetJob` (and the identical variant-2 `reset`) clears the
job and the `isProcessing` flag but leaves the scheduled `pollForCompletion`
timer pending — the source holds no timer handle, calls no `clearTimeout` and
checks no cancellation flag — so when the timer fires after the reset, the
poll closure reports a new job state: state is mutated after cancellation. -/
theorem reset_leaves_pending_poll :
    (resetJob pendingState).currentJob = none ∧
    (resetJob pendingState).isProcessing = false ∧
    (resetJob pendingState).pollTimerPending = true ∧
    (firePendingPoll 0 5000 (v2Job25 "job_1") (PollObs.runs [] ArtifactsResult.err)
        (resetJob pendingState)).currentJob ≠ none := by
  decide

/-- C6 (counterexample): variant 1 performs the dispatch fetch without any
token check: invoked with no credential it still attempts the network request
(with an empty `Authorization` value), instead of failing with a configuration
error before any network call. -/
theorem v1_dispatches_without_token :
    startAlignment1 none "job_1" "data:audio" "la la la" "lrc" =
      DispatchAttempt.networkRequest
        { auth := none,
          client_payload :=
            { audio_url := "data:audio", lyrics_text := "la la la",
              format := "lrc", job_id := "job_1" } } := by
  rfl

/-- C6 (amended): in variants 2 and 3 a missing credential is surfaced as a
configuration error before any network request is attempted — variant 2
through the `testConnection` short-circuit, variant 3 through its explicit
token check; variant 1 instead attempts the dispatch request regardless. -/
theorem missing_token_config_error :
    ∀ (connOk : Bool) (jobId : String) (file : FileInfo)
      (lyricsText outputFormat fileName : String) (fileSize : Nat) (lyrics : String),
      startAlignment2 none connOk jobId file lyricsText outputFormat =
        DispatchAttempt.configError tokenMissingMsg ∧
      startAlignment3 none fileName fileSize lyrics =
        DispatchAttempt.configError "GitHub token is not configured" := by
  intro connOk jobId file lyricsText outputFormat fileName fileSize lyrics
  exact ⟨rfl, rfl⟩

/-- C7 (counterexample): in variant 1 a successful run whose artifact listing
throws does not complete the job: the thrown fetch is swallowed by the
iteration catch, the job snapshot stays non-terminal (`processing`) and the
next poll is scheduled — against the claim that the terminal state remains
`completed` with a degraded artifact list. -/
theorem v1_artifact_failure_repolls :
    (pollStep1 0 10000 (v1Job30 "job_1")
        (PollObs.runs [succeededRun] ArtifactsResult.err)).1 =
      [v1RunJob succeededRun (v1Job30 "job_1")] ∧
    (v1RunJob succeededRun (v1Job30 "job_1")).status = JobStatus.processing ∧
    (pollStep1 0 10000 (v1Job30 "job_1")
        (PollObs.runs [succeededRun] ArtifactsResult.err)).2.2 = true := by
  decide

/-- C7 (amended): in variant 2 an artifact-listing failure after a successful
run still ends the job `completed` at progress 100, with the artifact list
left as it was (reported as empty), and in variant 3 it yields the degraded
fallback result at progress 100; variant 1 instead re-enters polling. -/
theorem artifact_failure_keeps_completed :
    (∀ (startTime now : Int) (job : Job) (wfs : List RemoteRun)
       (rest : List (Int × PollObs)) (run : RemoteRun),
        now - startTime ≤ maxWaitTime2 →
        wfs.find? (recentRunPred startTime) = some run →
        run.status = RunStatus.completed →
        run.conclusion = some Conclusion.success →
        pollTrace2 startTime job ((now, PollObs.runs wfs ArtifactsResult.err) :: rest) =
          [v2FetchingJob { job with workflowRunId := some run.id },
           v2CompletedNoListJob { job with workflowRunId := some run.id }] ∧
        (v2CompletedNoListJob { job with workflowRunId := some run.id }).status =
          JobStatus.completed ∧
        (v2CompletedNoListJob { job with workflowRunId := some run.id }).results =
          job.results ∧
        (v2CompletedNoListJob { job with workflowRunId := some run.id }).progress = 100) ∧
    (∀ name : String,
        v3ArtifactPhase name V3ArtifactsResp.httpErr =
          ({ lrcContent := s!"Alignment completed for: {name}", downloadUrl := "#" }, 100) ∧
        v3Finish succeededRun V3ArtifactsResp.httpErr name =
          V3Outcome.done
            { lrcContent := s!"Alignment completed for: {name}", downloadUrl := "#" }) := by
  constructor
  · intro st now job wfs rest run h1 h2 h3 h4
    have htime : ¬ maxWaitTime2 < now - st := not_lt.mpr h1
    refine ⟨?_, by simp [v2CompletedNoListJob, v2FetchingJob],
            by simp [v2CompletedNoListJob, v2FetchingJob],
            by simp [v2CompletedNoListJob, v2FetchingJob]⟩
    simp [pollTrace2, pollStep2, htime, h2, h3, h4]
  · intro name
    exact ⟨rfl, rfl⟩

/-- C7 (witness): the variant-2 equation of `artifact_failure_keeps_completed`
at a concrete successful run whose artifact listing throws. -/
theorem artifact_failure_keeps_completed_inst :
    pollTrace2 0 (v2Job25 "job_1")
        [(0, PollObs.runs [succeededRun] ArtifactsResult.err)] =
      [v2FetchingJob { v2Job25 "job_1" with workflowRunId := some succeededRun.id },
       v2CompletedNoListJob { v2Job25 "job_1" with
         workflowRunId := some succeededRun.id }] ∧
    (v2CompletedNoListJob { v2Job25 "job_1" with
        workflowRunId := some succeededRun.id }).status = JobStatus.completed ∧
    (v2CompletedNoListJob { v2Job25 "job_1" with
        workflowRunId := some succeededRun.id }).results = (v2Job25 "job_1").results ∧
    (v2CompletedNoListJob { v2Job25 "job_1" with
        workflowRunId := some succeededRun.id }).progress = 100 :=
  artifact_failure_keeps_completed.1 0 0 (v2Job25 "job_1") [succeededRun] []
    succeededRun (by decide) (by decide) rfl rfl

/-- C8 (counterexample): in variant 3 an empty artifact list is treated as an
error — the `No artifacts were generated` throw — whose catch produces exactly
the same degraded fallback (`downloadUrl = "#"`) as a failed artifacts
request, instead of an empty-list success carrying the artifact metadata. -/
theorem v3_empty_artifacts_error_path :
    v3ArtifactPhase "song.mp3" (V3ArtifactsResp.ok []) =
      v3ArtifactPhase "song.mp3" V3ArtifactsResp.httpErr ∧
    (v3ArtifactPhase "song.mp3" (V3ArtifactsResp.ok [])).1.downloadUrl = "#" := by
  decide

/-- C8 (amended): in variants 1 and 2 a successful run with zero artifacts
completes the job with the empty artifact list stored and the error field
untouched — the empty list is not an error; variant 3 instead routes the empty
list through its artifact-error fallback (the job still completes). -/
theorem empty_artifacts_complete :
    (∀ (startTime now : Int) (job : Job) (wfs : List RemoteRun)
       (rest : List (Int × PollObs)) (run : RemoteRun),
        now - startTime ≤ maxWaitTime1 →
        relevantRun startTime wfs = some run →
        run.conclusion = some Conclusion.success →
        pollTrace1 startTime job ((now, PollObs.runs wfs (ArtifactsResult.ok [])) :: rest) =
          [v1RunJob run job, v1CompletedJob [] run job] ∧
        (v1CompletedJob [] run job).status = JobStatus.completed ∧
        (v1CompletedJob [] run job).results = some [] ∧
        (v1CompletedJob [] run job).error = job.error) ∧
    (∀ (startTime now : Int) (job : Job) (wfs : List RemoteRun)
       (rest : List (Int × PollObs)) (run : RemoteRun),
        now - startTime ≤ maxWaitTime2 →
        wfs.find? (recentRunPred startTime) = some run →
        run.status = RunStatus.completed →
        run.conclusion = some Conclusion.success →
        pollTrace2 startTime job ((now, PollObs.runs wfs (ArtifactsResult.ok [])) :: rest) =
          [v2FetchingJob { job with workflowRunId := some run.id },
           v2CompletedJob [] { job with workflowRunId := some run.id }] ∧
        (v2CompletedJob [] { job with workflowRunId := some run.id }).status =
          JobStatus.completed ∧
        (v2CompletedJob [] { job with workflowRunId := some run.id }).results = some [] ∧
        (v2CompletedJob [] { job with workflowRunId := some run.id }).error = job.error) := by
  constructor
  · intro st now job wfs rest run h1 h2 h3
    have htime : ¬ maxWaitTime1 < now - st := not_lt.mpr h1
    refine ⟨?_, by simp [v1CompletedJob, v1RunJob],
            by simp [v1CompletedJob, v1RunJob],
            by simp [v1CompletedJob, v1RunJob]⟩
    simp [pollTrace1, pollStep1, htime, h2, h3]
  · intro st now job wfs rest run h1 h2 h3 h4
    have htime : ¬ maxWaitTime2 < now - st := not_lt.mpr h1
    refine ⟨?_, by simp [v2CompletedJob, v2FetchingJob],
            by simp [v2CompletedJob, v2FetchingJob],
            by simp [v2CompletedJob, v2FetchingJob]⟩
    simp [pollTrace2, pollStep2, htime, h2, h3, h4]

/-- C8 (witness): the variant-1 equation of `empty_artifacts_complete` at a
concrete successful run that produced no artifacts. -/
theorem empty_artifacts_complete_inst :
    pollTrace1 0 (v1Job30 "job_1")
        [(10000, PollObs.runs [succeededRun] (ArtifactsResult.ok []))] =
      [v1RunJob succeededRun (v1Job30 "job_1"),
       v1CompletedJob [] succeededRun (v1Job30 "job_1")] ∧
    (v1CompletedJob [] succeededRun (v1Job30 "job_1")).status = JobStatus.completed ∧
    (v1CompletedJob [] succeededRun (v1Job30 "job_1")).results = some [] ∧
    (v1CompletedJob [] succeededRun (v1Job30 "job_1")).error = (v1Job30 "job_1").error :=
  empty_artifacts_complete.1 0 10000 (v1Job30 "job_1") [succeededRun] []
    succeededRun (by decide) (by decide) rfl

/-- C9 (counterexample): variants 1 and 3 send the lyrics untruncated: a 1001
character lyrics text — over the 1000 character ceiling — is carried in both
dispatch payloads unchanged. -/
theorem v1_oversized_lyrics_sent :
    startAlignment1 (some "tok") "job_1" "data:audio" longLyrics "lrc" =
      DispatchAttempt.networkRequest
        { auth := some "tok",
          client_payload :=
            { audio_url := "data:audio", lyrics_text := longLyrics,
              format := "lrc", job_id := "job_1" } } ∧
    startAlignment3 (some "tok") "song.mp3" 5000000 longLyrics =
      DispatchAttempt.networkRequest
        { auth := some "tok",
          client_payload :=
            { fileName := "song.mp3", fileSize := 5000000, lyrics := longLyrics } } ∧
    longLyrics.length = 1001 ∧
    ¬ longLyrics.length ≤ 1000 := by
  refine ⟨rfl, rfl, longLyrics_length, ?_⟩
  rw [longLyrics_length]
  decide

/-- C9 (amended): variant 2 pre-truncates the lyrics before the send — a text
of length at most 1000 is carried unchanged, a longer text is cut to its first
1000 characters plus a three-character ellipsis (total length 1003), so the
field is always bounded by 1003 — and its dispatch payload carries exactly the
truncated text; the variant-1 and variant-3 dispatch payloads instead carry
every lyrics text unchanged, with no truncation. -/
theorem lyrics_truncation :
    ∀ lyricsText : String,
      (lyricsText.length ≤ 1000 → truncatedLyrics lyricsText = lyricsText) ∧
      (1000 < lyricsText.length →
        truncatedLyrics lyricsText = lyricsText.take 1000 ++ "..." ∧
        (truncatedLyrics lyricsText).length = 1003) ∧
      (truncatedLyrics lyricsText).length ≤ 1003 ∧
      (∀ (tok jobId : String) (file : FileInfo) (outputFormat : String),
        startAlignment2 (some tok) true jobId file lyricsText outputFormat =
          DispatchAttempt.networkRequest
            { auth := some tok,
              client_payload :=
                { job_id := jobId, audio_file_info := file,
                  lyrics_text := truncatedLyrics lyricsText,
                  format := outputFormat, demo_mode := true } }) ∧
      (∀ (tok jobId audioUrl outputFormat : String),
        startAlignment1 (some tok) jobId audioUrl lyricsText outputFormat =
          DispatchAttempt.networkRequest
            { auth := some tok,
              client_payload :=
                { audio_url := audioUrl, lyrics_text := lyricsText,
                  format := outputFormat, job_id := jobId } }) ∧
      (∀ (tok fileName : String) (fileSize : Nat),
        startAlignment3 (some tok) fileName fileSize lyricsText =
          DispatchAttempt.networkRequest
            { auth := some tok,
              client_payload :=
                { fileName := fileName, fileSize := fileSize,
                  lyrics := lyricsText } }) := by
  intro s
  have htake : (s.take 1000).length = min 1000 s.length := by
    rw [String.take_eq]
    cases s with
    | mk data => simp [String.length_mk]
  have hlen : 1000 < s.length → (truncatedLyrics s).length = 1003 := by
    intro h
    rw [truncatedLyrics, if_pos h, String.length_append, htake]
    have hmin : min 1000 s.length = 1000 := by omega
    rw [hmin]
    decide
  refine ⟨?_, fun h => ⟨?_, hlen h⟩, ?_, ?_, ?_, ?_⟩
  · intro h
    rw [truncatedLyrics, if_neg (by omega)]
  · rw [truncatedLyrics, if_pos h]
  · by_cases h : 1000 < s.length
    · rw [hlen h]
    · rw [truncatedLyrics, if_neg h]
      omega
  · intro tok jobId file outputFormat
    rfl
  · intro tok jobId audioUrl outputFormat
    rfl
  · intro tok fileName fileSize
    rfl

/-- C9 (witness): `lyrics_truncation` applied to a short text and to the 1001
character sample. -/
theorem lyrics_truncation_inst :
    truncatedLyrics "la la" = "la la" ∧ (truncatedLyrics longLyrics).length = 1003 :=
  ⟨(lyrics_truncation "la la").1 (by decide),
   ((lyrics_truncation longLyrics).2.1 (by rw [longLyrics_length]; decide)).2⟩

/-- C10: in the first hook variant, the effect trace of a `startAlignment`
invocation whose dispatch succeeds ends with `setIsProcessing(false)` — emitted
by the `finally` block right after the first poll has merely been scheduled —
while every job snapshot reported so far is still non-terminal; the polling
closure run later can still take the job to `completed`, `failed` or
`timeout`, as the three step evaluations show. -/
theorem isProcessing_false_after_schedule :
    ∀ jobId errMsg : String,
      (startAlignmentEffects1 true jobId errMsg).getLast? =
        some (Effect.setProcessing false) ∧
      Effect.schedulePoll 5000 ∈ startAlignmentEffects1 true jobId errMsg ∧
      (∀ j : Job, Effect.setJob j ∈ startAlignmentEffects1 true jobId errMsg →
        j.status ≠ JobStatus.completed ∧ j.status ≠ JobStatus.failed ∧
          j.status ≠ JobStatus.timeout) ∧
      (pollStep1 0 10000 (v1Job30 jobId)
        (PollObs.runs [succeededRun] (ArtifactsResult.ok []))).2.1.status =
        JobStatus.completed ∧
      (pollStep1 0 10000 (v1Job30 jobId)
        (PollObs.runs [failedRun] ArtifactsResult.err)).2.1.status =
        JobStatus.failed ∧
      (pollStep1 0 700000 (v1Job30 jobId) PollObs.pollErr).2.1.status =
        JobStatus.timeout := by
  intro jobId errMsg
  refine ⟨rfl, ?_, ?_, ?_, ?_, ?_⟩
  · simp [startAlignmentEffects1]
  · intro j hj
    have hj' : j = v1JobStarting ∨ j = v1Job10 ∨ j = v1Job30 jobId := by
      simpa [startAlignmentEffects1] using hj
    rcases hj' with h | h | h <;> subst h <;>
      exact ⟨by simp [v1JobStarting, v1Job10, v1Job30],
             by simp [v1JobStarting, v1Job10, v1Job30],
             by simp [v1JobStarting, v1Job10, v1Job30]⟩
  · rfl
  · rfl
  · rfl

/-- C10 (witness): `isProcessing_false_after_schedule` at a concrete job
identifier. -/
theorem isProcessing_false_after_schedule_inst :
    (startAlignmentEffects1 true "job_1" "").getLast? =
      some (Effect.setProcessing false) ∧
    Effect.schedulePoll 5000 ∈ startAlignmentEffects1 true "job_1" "" :=
  ⟨(isProcessing_false_after_schedule "job_1" "").1,
   (isProcessing_false_after_schedule "job_1" "").2.1⟩

end AutoLyrix
